import Mathlib

/-!
Verification of the DynamoDB guidance evaluation pipeline
(`tests/evals` of the dynamodb-mcp-server source tree).

Shallow-embedding conventions used throughout this file:

* Python `str` values are embedded as `String`; all text processing is
  carried out on `List Char` (obtained via `String.data`) by structural or
  fuel-driven recursion, so that every definition reduces inside the kernel.
* Python `float` is embedded as `ℚ`.  `round(x, 2)` is embedded as exact
  round-half-to-even at two decimal places (Python's documented tie-breaking
  rule); binary floating-point representation error is not modeled.
* Fallible operations return `Option` or `Except`; a Python exception that a
  function lets escape is an `Except.error` value carrying the exception
  class.
* The external reasoning engine (`dspy`) and the conversational agent
  (`strands`) are opaque collaborators: their outputs appear as parameters
  (raw text fields, or `Except` outcomes for calls that may raise).
-/

namespace Evals

/-- Whitespace recognized by Python's `str.strip` / `str.split` / regex `\s`
(the ASCII subset; exotic Unicode whitespace is not modeled). -/
def isPySpace (c : Char) : Bool :=
  c = ' ' || c = '\t' || c = '\n' || c = '\r' || c = '\x0b' || c = '\x0c'

/-- Fuel-driven splitting of a character list on a non-empty separator,
matching Python `str.split(sep)`: non-overlapping occurrences, scanned left
to right.  The fuel is always instantiated with the length of the list, which
is enough for full traversal; fuel recursion keeps the definition
structurally recursive so it evaluates inside the kernel. -/
def splitOnChars (sep : List Char) : Nat → List Char → List (List Char)
  | _, [] => [[]]
  | 0, s => [s]
  | fuel + 1, c :: rest =>
    if sep ≠ [] ∧ sep.isPrefixOf (c :: rest) then
      [] :: splitOnChars sep fuel (List.drop (sep.length - 1) rest)
    else
      match splitOnChars sep fuel rest with
      | [] => [[c]]
      | h :: t => (c :: h) :: t

/-- Python `str.replace(pat, rep)` for a non-empty pattern: replace each
non-overlapping occurrence, scanning left to right. -/
def replaceChars (pat rep s : List Char) : List Char :=
  List.intercalate rep (splitOnChars pat s.length s)

/-- Python `str.strip()`: trim leading and trailing whitespace. -/
def stripChars (s : List Char) : List Char :=
  ((s.dropWhile isPySpace).reverse.dropWhile isPySpace).reverse

/-- Numeric value of a list of decimal digits (most significant first). -/
def digitsToNat (ds : List Char) : ℕ :=
  ds.foldl (fun a c => 10 * a + (c.toNat - 48)) 0

/-- Greedy match of the regex `\d+\.?\d*` at the head of `s`: at least one
digit, an optional dot, then any further digits.  Returns the matched
characters together with the remaining input, or `none` when `s` does not
start with a digit.  The involved character classes (digit, dot) are
disjoint from every literal that follows this group in the source patterns,
so greedy matching coincides with full backtracking semantics. -/
def numAt (s : List Char) : Option (List Char × List Char) :=
  let ds := s.takeWhile Char.isDigit
  if ds = [] then none
  else
    match s.drop ds.length with
    | '.' :: r2 =>
      let fs := r2.takeWhile Char.isDigit
      some (ds ++ '.' :: fs, r2.drop fs.length)
    | rest => some (ds, rest)

/-- Discrete decomposition of a string matched by `\d+\.?\d*`: value of the
digits before the dot, value of the digits after the dot, and how many
digits follow the dot.  Kept separate from the rational assembly so that it
evaluates by `decide`. -/
def parseNumParts (cs : List Char) : ℕ × ℕ × ℕ :=
  (digitsToNat (cs.takeWhile Char.isDigit),
   digitsToNat ((cs.drop ((cs.takeWhile Char.isDigit).length + 1)).takeWhile
     Char.isDigit),
   ((cs.drop ((cs.takeWhile Char.isDigit).length + 1)).takeWhile
     Char.isDigit).length)

/-- Value of a string matched by `\d+\.?\d*` (Python `float` of such a match
never raises). -/
def parseNumQ (cs : List Char) : ℚ :=
  ((parseNumParts cs).1 : ℚ) +
    ((parseNumParts cs).2.1 : ℚ) / 10 ^ (parseNumParts cs).2.2

/-- Leftmost match: try the position-local matcher `f` at every position of
the text, left to right, exactly like `re.findall`'s scan order (only the
first match is ever used by the source). -/
def scanFirst {α : Type} (f : List Char → Option α) : List Char → Option α
  | [] => f []
  | c :: rest => f (c :: rest) <|> scanFirst f rest

/-- Helper for the first source pattern: a literal `lit`, then `\s*`, then
the captured number. -/
def tryPrefixNum (lit : List Char) (s : List Char) : Option (List Char) :=
  if lit.isPrefixOf s then
    (numAt ((s.drop lit.length).dropWhile isPySpace)).map Prod.fst
  else none

/-- Position-local matcher for `(?:score|rating):\s*(\d+\.?\d*)(?:/10)?`
(the optional `/10` tail does not affect the captured group). -/
def tryPat1 (s : List Char) : Option (List Char) :=
  tryPrefixNum "score:".data s <|> tryPrefixNum "rating:".data s

/-- Position-local matcher for `(\d+\.?\d*)/10`. -/
def tryPat2 (s : List Char) : Option (List Char) :=
  match numAt s with
  | some (cap, rest) => if "/10".data.isPrefixOf rest then some cap else none
  | none => none

/-- Position-local matcher for `(\d+\.?\d*)\s*(?:out of 10|/10)`. -/
def tryPat3 (s : List Char) : Option (List Char) :=
  match numAt s with
  | some (cap, rest) =>
    let r := rest.dropWhile isPySpace
    if "out of 10".data.isPrefixOf r ∨ "/10".data.isPrefixOf r then some cap
    else none
  | none => none

/-- Position-local matcher for the bare-number pattern `(\d+\.?\d*)`. -/
def tryPat4 (s : List Char) : Option (List Char) :=
  (numAt s).map Prod.fst

/-- The four regex patterns of `extract_numeric_score`, tried in source
order; for the first pattern that matches anywhere, the leftmost captured
group is returned. -/
def firstPatternMatch (s : List Char) : Option (List Char) :=
  scanFirst tryPat1 s <|> scanFirst tryPat2 s <|> scanFirst tryPat3 s <|>
    scanFirst tryPat4 s

/-- Numeric value recovered by the regex cascade, if any. -/
def matchedScore (s : List Char) : Option ℚ :=
  (firstPatternMatch s).map parseNumQ

/-- Python's `pat in text` substring test. -/
def containsSub (pat : List Char) : List Char → Bool
  | [] => pat.isEmpty
  | c :: rest => pat.isPrefixOf (c :: rest) || containsSub pat rest

/-- `any(word in text for word in ws)`. -/
def containsAnyWord (s : List Char) (ws : List String) : Bool :=
  ws.any (fun w => containsSub w.data s)

/-- Keyword fallback of `extract_numeric_score` (`basic_evaluator.py`,
lines 64-73): qualitative bands checked in source order on the lowercased
text. -/
def keywordScore (s : List Char) : Option ℚ :=
  if containsAnyWord s ["excellent", "outstanding", "exceptional"] then some 9
  else if containsAnyWord s ["good", "solid", "well"] then some (15 / 2)
  else if containsAnyWord s ["adequate", "acceptable", "reasonable"] then
    some (13 / 2)
  else if containsAnyWord s ["poor", "lacking", "insufficient"] then some 4
  else none

/-- `extract_numeric_score` (`basic_evaluator.py`, lines 39-75): empty input
defaults to 7.0; otherwise the regex cascade runs on the lowercased text and
a match above 10 is divided by 10 and the result clamped to `[1, 10]`; with
no match, keyword heuristics apply, defaulting to 7.0.  The source's
`except ValueError: continue` is dead code — a string matched by
`\d+\.?\d*` always parses — so it is not modeled. -/
def extract_numeric_score (text : String) : ℚ :=
  if text = "" then 7
  else
    match matchedScore (text.data.map Char.toLower) with
    | some x => max 1 (min 10 (if 10 < x then x / 10 else x))
    | none => (keywordScore (text.data.map Char.toLower)).getD 7

/-- `EvaluationConfig.QUALITY_THRESHOLDS` (`evaluation_config.py`,
lines 171-177). -/
def QUALITY_THRESHOLDS : List (String × ℚ) :=
  [("excellent", 17 / 2), ("good", 7), ("acceptable", 11 / 2),
   ("needs_improvement", 4), ("poor", 2)]

/-- `EvaluationConfig.get_quality_level` (`evaluation_config.py`,
lines 232-257): ordered threshold checks, highest first.  The source indexes
the thresholds dict with keys that are always present; the `getD 0` default
is unreachable. -/
def get_quality_level (score : ℚ) : String :=
  if (QUALITY_THRESHOLDS.lookup "excellent").getD 0 ≤ score then "excellent"
  else if (QUALITY_THRESHOLDS.lookup "good").getD 0 ≤ score then "good"
  else if (QUALITY_THRESHOLDS.lookup "acceptable").getD 0 ≤ score then
    "acceptable"
  else if (QUALITY_THRESHOLDS.lookup "needs_improvement").getD 0 ≤ score then
    "needs_improvement"
  else "poor"

/-- Round-half-to-even to an integer (Python's `round` tie rule, applied to
exact rationals). -/
def roundHalfEven (q : ℚ) : ℤ :=
  if q - ⌊q⌋ < 1 / 2 then ⌊q⌋
  else if 1 / 2 < q - ⌊q⌋ then ⌊q⌋ + 1
  else if ⌊q⌋ % 2 = 0 then ⌊q⌋ else ⌊q⌋ + 1

/-- Python `round(q, 2)` on exact rationals. -/
def round2 (q : ℚ) : ℚ :=
  (roundHalfEven (100 * q) : ℚ) / 100

/-- Discrete scanner for the Python `float()` literal grammar as it occurs
in a whitespace-free token: optional sign, digits with an optional
fractional part (at least one digit overall), optional exponent, nothing
trailing.  Returns `(negative?, integer-part value, fraction value,
fraction length, negative exponent?, exponent value)`.  `inf`/`nan` and
digit underscores, which Python additionally accepts, are not modeled (no
score field of this pipeline carries them).  Kept separate from the
rational assembly `pyFloatVal` so that it evaluates by `decide`. -/
def pyFloatParse (t : List Char) : Option (Bool × ℕ × ℕ × ℕ × Bool × ℕ) :=
  let sgn : Bool × List Char :=
    match t with
    | '+' :: r => (false, r)
    | '-' :: r => (true, r)
    | _ => (false, t)
  let ds := sgn.2.takeWhile Char.isDigit
  let s2 := sgn.2.drop ds.length
  let frac : List Char × List Char :=
    match s2 with
    | '.' :: r => (r.takeWhile Char.isDigit,
        r.drop (r.takeWhile Char.isDigit).length)
    | _ => ([], s2)
  if ds = [] ∧ frac.1 = [] then none
  else
    match frac.2 with
    | [] => some (sgn.1, digitsToNat ds, digitsToNat frac.1, frac.1.length,
        false, 0)
    | e :: r =>
      if e = 'e' ∨ e = 'E' then
        let esgn : Bool × List Char :=
          match r with
          | '+' :: rr => (false, rr)
          | '-' :: rr => (true, rr)
          | _ => (false, r)
        let eds := esgn.2.takeWhile Char.isDigit
        if eds = [] ∨ esgn.2.drop eds.length ≠ [] then none
        else some (sgn.1, digitsToNat ds, digitsToNat frac.1, frac.1.length,
          esgn.1, digitsToNat eds)
      else none

/-- Rational value of a scanned float token. -/
def pyFloatVal (p : Bool × ℕ × ℕ × ℕ × Bool × ℕ) : ℚ :=
  match p with
  | (neg, ip, fv, fl, eneg, ev) =>
    (if neg then -1 else 1) * ((ip : ℚ) + (fv : ℚ) / 10 ^ fl) *
      (if eneg then ((10 : ℚ) ^ ev)⁻¹ else (10 : ℚ) ^ ev)

/-- Python `float(tok)` on a whitespace-free token, `ValueError` as
`none`. -/
def pyFloat? (t : List Char) : Option ℚ :=
  (pyFloatParse t).map pyFloatVal

/-- `str.split()[0]`, with `IndexError` (no token) as `none`: the first
maximal run of non-whitespace characters. -/
def firstToken (s : List Char) : Option (List Char) :=
  match s.dropWhile isPySpace with
  | [] => none
  | c :: rest => some ((c :: rest).takeWhile (fun x => !(isPySpace x)))

/-- `safe_float`, defined locally inside both
`DSPyEvaluationEngine._aggregate_evaluation_results` and
`_aggregate_session_evaluation_results` (`dspy_evaluators.py`, lines
391-395 and 428-432): `float(str(value).split()[0]) if value else default`,
with `ValueError`/`IndexError` mapped to the default.  Every call site uses
the default argument `0.0`, inlined here. -/
def safe_float (value : String) : ℚ :=
  if value = "" then 0
  else
    match firstToken value.data with
    | none => 0
    | some t => (pyFloat? t).getD 0

/-- `EvaluationDimension` (`evaluation_config.py`, lines 19-62): the five
design-quality dimensions. -/
inductive EvaluationDimension where
  | COMPLETENESS
  | TECHNICAL_ACCURACY
  | ACCESS_PATTERN_COVERAGE
  | SCALABILITY_CONSIDERATIONS
  | COST_OPTIMIZATION
deriving DecidableEq

/-- `SessionDimension` (`evaluation_config.py`, lines 65-108): the five
process-quality dimensions. -/
inductive SessionDimension where
  | REQUIREMENTS_ENGINEERING
  | ACCESS_PATTERN_ANALYSIS
  | METHODOLOGY_ADHERENCE
  | TECHNICAL_REASONING
  | PROCESS_DOCUMENTATION
deriving DecidableEq

/-- `EvaluationConfig.calculate_datamodel_eval_score` (`evaluation_config.py`,
lines 179-203): equal-weighted mean of the five design-dimension scores,
rounded to two decimals (`len(EvaluationDimension) = 5`). -/
def calculate_datamodel_eval_score (scores : EvaluationDimension → ℚ) : ℚ :=
  round2 ((scores .COMPLETENESS + scores .TECHNICAL_ACCURACY +
    scores .ACCESS_PATTERN_COVERAGE + scores .SCALABILITY_CONSIDERATIONS +
    scores .COST_OPTIMIZATION) / 5)

/-- `EvaluationConfig.calculate_session_eval_score` (`evaluation_config.py`,
lines 205-230). -/
def calculate_session_eval_score (scores : SessionDimension → ℚ) : ℚ :=
  round2 ((scores .REQUIREMENTS_ENGINEERING + scores .ACCESS_PATTERN_ANALYSIS +
    scores .METHODOLOGY_ADHERENCE + scores .TECHNICAL_REASONING +
    scores .PROCESS_DOCUMENTATION) / 5)

/-- The raw text fields of one `DynamoDBGuidanceEvaluator` engine response,
as consumed by `_aggregate_evaluation_results` (`dspy_evaluators.py`,
lines 148-171 declare the fields; the engine fills them with arbitrary
text). -/
structure GuidanceRaw where
  completeness_score : String
  technical_accuracy_score : String
  access_pattern_coverage_score : String
  scalability_considerations_score : String
  cost_optimization_score : String
  completeness_justification : String
  technical_justification : String
  overall_assessment : String

/-- `EvaluationResult` dataclass (`dspy_evaluators.py`, lines 237-257). -/
structure EvaluationResult where
  completeness : ℚ
  technical_accuracy : ℚ
  access_pattern_coverage : ℚ
  scalability_considerations : ℚ
  cost_optimization : ℚ
  justifications : List (String × String)
  overall_score : ℚ
  quality_level : String

/-- The raw text fields of one `DynamoDBSessionEvaluator` engine response
(`dspy_evaluators.py`, lines 196-234). -/
structure SessionRaw where
  requirements_engineering_score : String
  access_pattern_analysis_score : String
  methodology_adherence_score : String
  technical_reasoning_score : String
  process_documentation_score : String
  requirements_analysis : String
  methodology_assessment : String
  technical_depth_evaluation : String
  overall_session_assessment : String

/-- `SessionEvaluationResult` dataclass (`dspy_evaluators.py`, lines
260-278). -/
structure SessionEvaluationResult where
  requirements_engineering : ℚ
  access_pattern_analysis : ℚ
  methodology_adherence : ℚ
  technical_reasoning : ℚ
  process_documentation : ℚ
  justifications : List (String × String)
  overall_score : ℚ
  quality_level : String

/-- The `scores` dict built by `_aggregate_evaluation_results`
(`dspy_evaluators.py`, lines 398-404): `safe_float` of each raw field. -/
def guidanceScores (g : GuidanceRaw) : EvaluationDimension → ℚ
  | .COMPLETENESS => safe_float g.completeness_score
  | .TECHNICAL_ACCURACY => safe_float g.technical_accuracy_score
  | .ACCESS_PATTERN_COVERAGE => safe_float g.access_pattern_coverage_score
  | .SCALABILITY_CONSIDERATIONS => safe_float g.scalability_considerations_score
  | .COST_OPTIMIZATION => safe_float g.cost_optimization_score

/-- The `scores` dict built by `_aggregate_session_evaluation_results`
(`dspy_evaluators.py`, lines 434-440). -/
def sessionScores (g : SessionRaw) : SessionDimension → ℚ
  | .REQUIREMENTS_ENGINEERING => safe_float g.requirements_engineering_score
  | .ACCESS_PATTERN_ANALYSIS => safe_float g.access_pattern_analysis_score
  | .METHODOLOGY_ADHERENCE => safe_float g.methodology_adherence_score
  | .TECHNICAL_REASONING => safe_float g.technical_reasoning_score
  | .PROCESS_DOCUMENTATION => safe_float g.process_documentation_score

/-- `DSPyEvaluationEngine._aggregate_evaluation_results`
(`dspy_evaluators.py`, lines 389-424). -/
def _aggregate_evaluation_results (g : GuidanceRaw) : EvaluationResult :=
  { completeness := guidanceScores g .COMPLETENESS
    technical_accuracy := guidanceScores g .TECHNICAL_ACCURACY
    access_pattern_coverage := guidanceScores g .ACCESS_PATTERN_COVERAGE
    scalability_considerations := guidanceScores g .SCALABILITY_CONSIDERATIONS
    cost_optimization := guidanceScores g .COST_OPTIMIZATION
    justifications := [("completeness", g.completeness_justification),
      ("technical", g.technical_justification),
      ("overall", g.overall_assessment)]
    overall_score := calculate_datamodel_eval_score (guidanceScores g)
    quality_level :=
      get_quality_level (calculate_datamodel_eval_score (guidanceScores g)) }

/-- `DSPyEvaluationEngine._aggregate_session_evaluation_results`
(`dspy_evaluators.py`, lines 426-461). -/
def _aggregate_session_evaluation_results (g : SessionRaw) :
    SessionEvaluationResult :=
  { requirements_engineering := sessionScores g .REQUIREMENTS_ENGINEERING
    access_pattern_analysis := sessionScores g .ACCESS_PATTERN_ANALYSIS
    methodology_adherence := sessionScores g .METHODOLOGY_ADHERENCE
    technical_reasoning := sessionScores g .TECHNICAL_REASONING
    process_documentation := sessionScores g .PROCESS_DOCUMENTATION
    justifications := [("requirements", g.requirements_analysis),
      ("methodology", g.methodology_assessment),
      ("technical_depth", g.technical_depth_evaluation),
      ("overall", g.overall_session_assessment)]
    overall_score := calculate_session_eval_score (sessionScores g)
    quality_level :=
      get_quality_level (calculate_session_eval_score (sessionScores g)) }

/-- Hashable Python values usable as dict keys in the payloads
`ast.literal_eval` can produce here (tuple keys are not modeled; the
extraction path only ever subscripts with `'content'`, `0` and `'text'`). -/
inductive PyKey where
  | kStr (s : String)
  | kInt (n : ℤ)
  | kBool (b : Bool)
  | kNone
deriving DecidableEq

/-- Python values produced by `ast.literal_eval` as far as the extraction
path can observe them (tuples behave as lists for indexing and are folded
into `pyList`; `0 == False` key equivalence is not modeled). -/
inductive PyValue where
  | pyStr (s : String)
  | pyInt (n : ℤ)
  | pyBool (b : Bool)
  | pyNone
  | pyList (xs : List PyValue)
  | pyDict (kvs : List (PyKey × PyValue))

/-- Exception classes that `extract_guidance_sections` can encounter:
`KeyError`/`IndexError` are caught by its `except` clause, `TypeError`
(subscripting a non-subscriptable value or a sequence with a non-integer)
and `AttributeError` (calling `.replace` on a non-string) are not. -/
inductive PyErr where
  | keyError
  | indexError
  | typeError
  | attrError
deriving DecidableEq

/-- A Python `bool` used as a sequence index behaves as 0 or 1. -/
def keyAsInt : PyKey → Option ℤ
  | .kInt n => some n
  | .kBool b => some (if b then 1 else 0)
  | _ => none

/-- Python list indexing with negative-index wraparound; out of range is
`IndexError`. -/
def listIndex (xs : List PyValue) (i : ℤ) : Except PyErr PyValue :=
  let j := if i < 0 then i + xs.length else i
  if h : 0 ≤ j ∧ j.toNat < xs.length then .ok (xs.get ⟨j.toNat, h.2⟩)
  else .error .indexError

/-- Python string indexing: yields a one-character string, `IndexError`
when out of range. -/
def strIndex (s : String) (i : ℤ) : Except PyErr PyValue :=
  let j := if i < 0 then i + s.data.length else i
  if h : 0 ≤ j ∧ j.toNat < s.data.length then
    .ok (.pyStr ⟨[s.data.get ⟨j.toNat, h.2⟩]⟩)
  else .error .indexError

/-- Python subscript `v[k]`: dict lookup (`KeyError` on a missing key),
sequence indexing for lists and strings (`TypeError` on a non-integer key),
`TypeError` on non-subscriptable values. -/
def subscript (v : PyValue) (k : PyKey) : Except PyErr PyValue :=
  match v with
  | .pyDict kvs =>
    match kvs.find? (fun p => decide (p.1 = k)) with
    | some p => .ok p.2
    | none => .error .keyError
  | .pyList xs =>
    match keyAsInt k with
    | some i => listIndex xs i
    | none => .error .typeError
  | .pyStr s =>
    match keyAsInt k with
    | some i => strIndex s i
    | none => .error .typeError
  | _ => .error .typeError

/-- The fixed nested access `response_data['content'][0]['text']` of
`extract_guidance_sections` (`multiturn_evaluator.py`, line 138). -/
def contentPath (v : PyValue) : Except PyErr PyValue := do
  let c ← subscript v (.kStr "content")
  let c0 ← subscript c (.kInt 0)
  subscript c0 (.kStr "text")

/-- Step 3 of `extract_guidance_sections`: normalize escaped newlines,
`markdown_content.replace('\\n', '\n')`. -/
def normalizeContent (md : String) : List Char :=
  replaceChars ('\\' :: 'n' :: []) ('\n' :: []) md.data

/-- The fenced-block opening marker `'```markdown\n'` that the content is
split on. -/
def markdownFence : List Char :=
  "```markdown\n".data

/-- The block at position `i` of the fence split (`markdown_blocks[i]`,
guarded by the length check in the source, so the `getD []` default is
never taken on the live path). -/
def sectionBlock (content : List Char) (i : ℕ) : List Char :=
  ((splitOnChars markdownFence content.length content).get? i).getD []

/-- `markdown_blocks[i].split('```')[0].strip()`
(`multiturn_evaluator.py`, lines 157-158). -/
def sectionPiece (content : List Char) (i : ℕ) : List Char :=
  stripChars ((splitOnChars ('`' :: '`' :: '`' :: [])
    (sectionBlock content i).length (sectionBlock content i)).headD [])

/-- Steps 4-5 of `extract_guidance_sections`: split the markdown content on
the fence marker; fewer than three pieces is a failure, otherwise pieces 1
and 2 are truncated at the closing fence and trimmed. -/
def splitSections (content : List Char) :
    Except PyErr (Option String × Option String) :=
  if (splitOnChars markdownFence content.length content).length < 3 then
    .ok (none, none)
  else
    .ok (some ⟨sectionPiece content 1⟩, some ⟨sectionPiece content 2⟩)

/-- `extract_guidance_sections` (`multiturn_evaluator.py`, lines 107-160),
modeled over the outcome of the `ast.literal_eval` step (`none` = the parse
raised `ValueError`/`SyntaxError`, which the source catches).  The `except
(KeyError, IndexError)` clause around the nested access is modeled by the
error dispatch: those two errors degrade to the fully-absent result, while
a `TypeError` from the subscripting (and an `AttributeError` from calling
`.replace` on a non-string `text` value) escapes as an exception. -/
def extract_guidance_sections (parsed : Option PyValue) :
    Except PyErr (Option String × Option String) :=
  match parsed with
  | none => .ok (none, none)
  | some response_data =>
    match contentPath response_data with
    | .error .keyError => .ok (none, none)
    | .error .indexError => .ok (none, none)
    | .error .typeError => .error .typeError
    | .error .attrError => .error .attrError
    | .ok (.pyStr md) => splitSections (normalizeContent md)
    | .ok _ => .error .attrError

/-- `ComprehensiveEvaluationResult` (`multiturn_evaluator.py`, lines
376-396), restricted to the fields the verified claims are about; the
conversation record and the timing metadata are wall-clock data outside the
embedding. -/
structure ComprehensiveEvaluationResult where
  modeling_session : String
  data_model : String
  session_evaluation : Option SessionEvaluationResult
  model_evaluation : Option EvaluationResult
  session_quality_level : String
  model_quality_level : String

/-- Python truthiness of the optional extracted sections as used by
`if dynamodb_modeling_session and dynamodb_data_model:` — `None` and the
empty string are falsy. -/
def truthyStr : Option String → Bool
  | some s => !(s == "")
  | none => false

/-- `EnhancedMultiTurnEvaluator.evaluate_with_conversation`
(`multiturn_evaluator.py`, lines 429-501), modeled over the outcome of the
conversation+parse step (`parsed`) and the outcomes the two reasoning-engine
calls would have if reached (`sessionEval` first, then `modelEval`; `.error`
means the call raises).  The surrounding `try` turns any escaping exception
— from extraction or from either engine call — into a `None` return; when
either extracted section is falsy, both evaluations are skipped and a result
with both evaluations absent and `"unknown"` quality levels is returned. -/
def evaluate_with_conversation (parsed : Option PyValue)
    (sessionEval : Except Unit SessionEvaluationResult)
    (modelEval : Except Unit EvaluationResult) :
    Option ComprehensiveEvaluationResult :=
  match extract_guidance_sections parsed with
  | .error _ => none
  | .ok (sessOpt, modelOpt) =>
    if truthyStr sessOpt && truthyStr modelOpt then
      match sessionEval with
      | .error _ => none
      | .ok sres =>
        match modelEval with
        | .error _ => none
        | .ok mres =>
          some { modeling_session := sessOpt.getD ""
                 data_model := modelOpt.getD ""
                 session_evaluation := some sres
                 model_evaluation := some mres
                 session_quality_level := sres.quality_level
                 model_quality_level := mres.quality_level }
    else
      some { modeling_session := sessOpt.getD ""
             data_model := modelOpt.getD ""
             session_evaluation := none
             model_evaluation := none
             session_quality_level := "unknown"
             model_quality_level := "unknown" }

/-- The report dict returned by
`EnhancedMultiTurnEvaluator.evaluate_scenarios` (`multiturn_evaluator.py`,
lines 503-547), restricted to the fields the claims concern.  Fields absent
from the error dict are `none`; the structured evaluation results stand in
for their dict serializations. -/
structure ScenarioReport where
  status : String
  modeling_session : Option String
  data_model : Option String
  session_evaluation : Option SessionEvaluationResult
  model_evaluation : Option EvaluationResult
  session_quality_level : Option String
  model_quality_level : Option String

/-- `EnhancedMultiTurnEvaluator.evaluate_scenarios`: a `None` inner result
becomes a `status: error` report, otherwise a `status: success` report
carrying the inner fields. -/
def evaluate_scenarios (parsed : Option PyValue)
    (sessionEval : Except Unit SessionEvaluationResult)
    (modelEval : Except Unit EvaluationResult) : ScenarioReport :=
  match evaluate_with_conversation parsed sessionEval modelEval with
  | none =>
    { status := "error"
      modeling_session := none
      data_model := none
      session_evaluation := none
      model_evaluation := none
      session_quality_level := none
      model_quality_level := none }
  | some r =>
    { status := "success"
      modeling_session := some r.modeling_session
      data_model := some r.data_model
      session_evaluation := r.session_evaluation
      model_evaluation := r.model_evaluation
      session_quality_level := some r.session_quality_level
      model_quality_level := some r.model_quality_level }

/-- A well-formed agent payload: the markdown content sits at
`['content'][0]['text']`. -/
def mkPayload (md : String) : PyValue :=
  .pyDict [(.kStr "content", .pyList [.pyDict [(.kStr "text", .pyStr md)]])]

/-- An engine response whose completeness field is non-empty and
unparsable. -/
def garbageGuidance : GuidanceRaw :=
  { completeness_score := "garbage"
    technical_accuracy_score := "8"
    access_pattern_coverage_score := "8"
    scalability_considerations_score := "8"
    cost_optimization_score := "8"
    completeness_justification := ""
    technical_justification := ""
    overall_assessment := "" }

/-- An engine response all of whose fields are empty. -/
def emptyGuidance : GuidanceRaw :=
  { completeness_score := ""
    technical_accuracy_score := ""
    access_pattern_coverage_score := ""
    scalability_considerations_score := ""
    cost_optimization_score := ""
    completeness_justification := ""
    technical_justification := ""
    overall_assessment := "" }

/-- An engine response all of whose score fields are `"8"`. -/
def eightGuidance : GuidanceRaw :=
  { completeness_score := "8"
    technical_accuracy_score := "8"
    access_pattern_coverage_score := "8"
    scalability_considerations_score := "8"
    cost_optimization_score := "8"
    completeness_justification := ""
    technical_justification := ""
    overall_assessment := "" }

/-- A session engine response all of whose score fields are `"8"`. -/
def eightSession : SessionRaw :=
  { requirements_engineering_score := "8"
    access_pattern_analysis_score := "8"
    methodology_adherence_score := "8"
    technical_reasoning_score := "8"
    process_documentation_score := "8"
    requirements_analysis := ""
    methodology_assessment := ""
    technical_depth_evaluation := ""
    overall_session_assessment := "" }

/-- A successfully aggregated session result used as the already-obtained
outcome of the session-family evaluation. -/
def sampleSessionResult : SessionEvaluationResult :=
  { requirements_engineering := 8
    access_pattern_analysis := 8
    methodology_adherence := 8
    technical_reasoning := 8
    process_documentation := 8
    justifications := []
    overall_score := 8
    quality_level := "good" }

/-- A transcript payload with two well-formed fenced markdown sections. -/
def twoBlockPayload : PyValue :=
  mkPayload "```markdown\nA\n```\n```markdown\nB\n```"

/-- A transcript payload whose first fenced markdown block is empty after
trimming. -/
def emptyFirstBlockPayload : PyValue :=
  mkPayload "```markdown\n\n```\n```markdown\nB\n```"

/-- Evaluation helper: when the regex cascade finds a match, the score is
the clamped (and possibly renormalized) value of that match. -/
lemma ens_of_match (text : String) (cs : List Char) (h0 : ¬ text = "")
    (h : firstPatternMatch (text.data.map Char.toLower) = some cs) :
    extract_numeric_score text =
      max 1 (min 10 (if 10 < parseNumQ cs then parseNumQ cs / 10
        else parseNumQ cs)) := by
  unfold extract_numeric_score matchedScore
  rw [if_neg h0, h]
  rfl

/-- Evaluation helper: with no regex match, the keyword fallback decides. -/
lemma ens_of_keyword (text : String) (h0 : ¬ text = "")
    (h : firstPatternMatch (text.data.map Char.toLower) = none) :
    extract_numeric_score text =
      (keywordScore (text.data.map Char.toLower)).getD 7 := by
  unfold extract_numeric_score matchedScore
  rw [if_neg h0, h]
  rfl

/-- Rounding an integer changes nothing. -/
lemma roundHalfEven_intCast (n : ℤ) : roundHalfEven (n : ℚ) = n := by
  unfold roundHalfEven
  rw [Int.floor_intCast, sub_self]
  rw [if_pos (by norm_num : (0 : ℚ) < 1 / 2)]

/-- Rounding an integer to two decimals changes nothing. -/
lemma round2_intCast (n : ℤ) : round2 (n : ℚ) = n := by
  unfold round2
  have h : (100 : ℚ) * n = ((100 * n : ℤ) : ℚ) := by push_cast; ring
  rw [h, roundHalfEven_intCast]
  push_cast
  field_simp

/-- `safe_float` on the empty string is the default 0. -/
lemma safe_float_empty : safe_float "" = 0 := by
  unfold safe_float
  rw [if_pos rfl]

/-- Evaluation helper: `safe_float` through its first token. -/
lemma safe_float_of_token (s : String) (t : List Char) (h0 : ¬ s = "")
    (ht : firstToken s.data = some t) :
    safe_float s = (pyFloat? t).getD 0 := by
  unfold safe_float
  rw [if_neg h0, ht]

/-- A non-empty raw field whose first token fails Python float parsing maps
to the default 0. -/
lemma safe_float_unparsable (s : String) (t : List Char)
    (ht : firstToken s.data = some t) (hp : pyFloatParse t = none) :
    safe_float s = 0 := by
  have h0 : ¬ s = "" := by
    intro h
    have hnone : firstToken ("" : String).data = none := rfl
    rw [h, hnone] at ht
    exact Option.noConfusion ht
  rw [safe_float_of_token s t h0 ht]
  unfold pyFloat?
  rw [hp]
  rfl

/-- Evaluation helper: `safe_float` of a field whose first token parses. -/
lemma safe_float_parsed (s : String) (t : List Char)
    (p : Bool × ℕ × ℕ × ℕ × Bool × ℕ) (h0 : ¬ s = "")
    (ht : firstToken s.data = some t) (hp : pyFloatParse t = some p) :
    safe_float s = pyFloatVal p := by
  rw [safe_float_of_token s t h0 ht]
  unfold pyFloat?
  rw [hp]
  rfl

/-- Concrete value used by witnesses: `safe_float "8" = 8`. -/
lemma safe_float_eight : safe_float "8" = 8 := by
  rw [safe_float_parsed "8" ('8' :: []) (false, 8, 0, 0, false, 0)
    (by decide) (by decide) (by decide)]
  simp only [pyFloatVal]
  norm_num

/-- Concrete value used by counterexamples: `safe_float "garbage" = 0`. -/
lemma safe_float_garbage : safe_float "garbage" = 0 :=
  safe_float_unparsable "garbage"
    ('g' :: 'a' :: 'r' :: 'b' :: 'a' :: 'g' :: 'e' :: []) (by decide)
    (by decide)

/-- The keyword fallback only ever produces the four band values. -/
lemma keywordScore_mem (s : List Char) (k : ℚ) (h : keywordScore s = some k) :
    k = 9 ∨ k = 15 / 2 ∨ k = 13 / 2 ∨ k = 4 := by
  unfold keywordScore at h
  split_ifs at h <;>
    first
    | exact Or.inl (Option.some.inj h).symm
    | exact Or.inr (Or.inl (Option.some.inj h).symm)
    | exact Or.inr (Or.inr (Or.inl (Option.some.inj h).symm))
    | exact Or.inr (Or.inr (Or.inr (Option.some.inj h).symm))

/-- Integer lower bound survives round-half-to-even. -/
lemma roundHalfEven_ge_int (n : ℤ) (q : ℚ) (h : (n : ℚ) ≤ q) :
    n ≤ roundHalfEven q := by
  have hf : n ≤ ⌊q⌋ := Int.le_floor.mpr h
  unfold roundHalfEven
  split_ifs <;> omega

/-- Integer upper bound survives round-half-to-even. -/
lemma roundHalfEven_le_int (n : ℤ) (q : ℚ) (h : q ≤ (n : ℚ)) :
    roundHalfEven q ≤ n := by
  have hfn : ⌊q⌋ ≤ n := by
    have h2 := Int.floor_le_floor h
    rwa [Int.floor_intCast] at h2
  have hfl : (⌊q⌋ : ℚ) ≤ q := Int.floor_le q
  unfold roundHalfEven
  split_ifs with h1 h2w h3
  · exact hfn
  · have hq : (⌊q⌋ : ℚ) + 1 / 2 ≤ q := by linarith
    have hlt : ⌊q⌋ < n := by
      have hc : (⌊q⌋ : ℚ) < (n : ℚ) := by linarith
      exact_mod_cast hc
    omega
  · exact hfn
  · have hq : (⌊q⌋ : ℚ) + 1 / 2 ≤ q := by linarith
    have hlt : ⌊q⌋ < n := by
      have hc : (⌊q⌋ : ℚ) < (n : ℚ) := by linarith
      exact_mod_cast hc
    omega

/-- Integer bounds survive rounding to two decimals. -/
lemma round2_bounds (a b : ℤ) (q : ℚ) (h1 : (a : ℚ) ≤ q)
    (h2 : q ≤ (b : ℚ)) : (a : ℚ) ≤ round2 q ∧ round2 q ≤ (b : ℚ) := by
  have hlo : (100 * a : ℤ) ≤ roundHalfEven (100 * q) :=
    roundHalfEven_ge_int _ _ (by push_cast; linarith)
  have hhi : roundHalfEven (100 * q) ≤ (100 * b : ℤ) :=
    roundHalfEven_le_int _ _ (by push_cast; linarith)
  have hlo' : (100 : ℚ) * a ≤ (roundHalfEven (100 * q) : ℚ) := by
    exact_mod_cast hlo
  have hhi' : (roundHalfEven (100 * q) : ℚ) ≤ 100 * b := by
    exact_mod_cast hhi
  unfold round2
  constructor <;> linarith

/-- Five scores in `[1, 10]` put the rounded design mean in `[1, 10]`. -/
lemma calc_datamodel_bounds (scores : EvaluationDimension → ℚ)
    (h : ∀ d, 1 ≤ scores d ∧ scores d ≤ 10) :
    1 ≤ calculate_datamodel_eval_score scores ∧
      calculate_datamodel_eval_score scores ≤ 10 := by
  obtain ⟨a1, b1⟩ := h .COMPLETENESS
  obtain ⟨a2, b2⟩ := h .TECHNICAL_ACCURACY
  obtain ⟨a3, b3⟩ := h .ACCESS_PATTERN_COVERAGE
  obtain ⟨a4, b4⟩ := h .SCALABILITY_CONSIDERATIONS
  obtain ⟨a5, b5⟩ := h .COST_OPTIMIZATION
  have hb := round2_bounds 1 10
    ((scores .COMPLETENESS + scores .TECHNICAL_ACCURACY +
      scores .ACCESS_PATTERN_COVERAGE + scores .SCALABILITY_CONSIDERATIONS +
      scores .COST_OPTIMIZATION) / 5)
    (by push_cast; linarith) (by push_cast; linarith)
  unfold calculate_datamodel_eval_score
  exact ⟨by exact_mod_cast hb.1, by exact_mod_cast hb.2⟩

/-- Five scores in `[1, 10]` put the rounded session mean in `[1, 10]`. -/
lemma calc_session_bounds (scores : SessionDimension → ℚ)
    (h : ∀ d, 1 ≤ scores d ∧ scores d ≤ 10) :
    1 ≤ calculate_session_eval_score scores ∧
      calculate_session_eval_score scores ≤ 10 := by
  obtain ⟨a1, b1⟩ := h .REQUIREMENTS_ENGINEERING
  obtain ⟨a2, b2⟩ := h .ACCESS_PATTERN_ANALYSIS
  obtain ⟨a3, b3⟩ := h .METHODOLOGY_ADHERENCE
  obtain ⟨a4, b4⟩ := h .TECHNICAL_REASONING
  obtain ⟨a5, b5⟩ := h .PROCESS_DOCUMENTATION
  have hb := round2_bounds 1 10
    ((scores .REQUIREMENTS_ENGINEERING + scores .ACCESS_PATTERN_ANALYSIS +
      scores .METHODOLOGY_ADHERENCE + scores .TECHNICAL_REASONING +
      scores .PROCESS_DOCUMENTATION) / 5)
    (by push_cast; linarith) (by push_cast; linarith)
  unfold calculate_session_eval_score
  exact ⟨by exact_mod_cast hb.1, by exact_mod_cast hb.2⟩

/-- `get_quality_level` with the dict lookups evaluated. -/
lemma get_quality_level_ifs (s : ℚ) :
    get_quality_level s =
      if 17 / 2 ≤ s then "excellent"
      else if 7 ≤ s then "good"
      else if 11 / 2 ≤ s then "acceptable"
      else if 4 ≤ s then "needs_improvement"
      else "poor" := by
  unfold get_quality_level
  rw [show (QUALITY_THRESHOLDS.lookup "excellent").getD 0 = 17 / 2 from rfl,
      show (QUALITY_THRESHOLDS.lookup "good").getD 0 = 7 from rfl,
      show (QUALITY_THRESHOLDS.lookup "acceptable").getD 0 = 11 / 2 from rfl,
      show (QUALITY_THRESHOLDS.lookup "needs_improvement").getD 0 = 4 from
        rfl]

/-- Evaluation helper: `evaluate_with_conversation` once the extraction
outcome is known. -/
lemma ewc_of_extract (parsed : Option PyValue) (a b : Option String)
    (se : Except Unit SessionEvaluationResult)
    (me : Except Unit EvaluationResult)
    (h : extract_guidance_sections parsed = .ok (a, b)) :
    evaluate_with_conversation parsed se me =
      (if truthyStr a && truthyStr b then
        match se with
        | .error _ => none
        | .ok sres =>
          match me with
          | .error _ => none
          | .ok mres =>
            some { modeling_session := a.getD ""
                   data_model := b.getD ""
                   session_evaluation := some sres
                   model_evaluation := some mres
                   session_quality_level := sres.quality_level
                   model_quality_level := mres.quality_level }
      else
        some { modeling_session := a.getD ""
               data_model := b.getD ""
               session_evaluation := none
               model_evaluation := none
               session_quality_level := "unknown"
               model_quality_level := "unknown" }) := by
  unfold evaluate_with_conversation
  rw [h]

/-- Unfolding helper: `extract_guidance_sections` on a parsed payload. -/
lemma egs_some (v : PyValue) :
    extract_guidance_sections (some v) =
      (match contentPath v with
      | .error .keyError => .ok (none, none)
      | .error .indexError => .ok (none, none)
      | .error .typeError => .error .typeError
      | .error .attrError => .error .attrError
      | .ok (.pyStr md) => splitSections (normalizeContent md)
      | .ok _ => .error .attrError) := rfl

/-- Unfolding helper: truthiness of a present section. -/
lemma truthy_some (s : String) : truthyStr (some s) = !(s == "") := rfl

end Evals

namespace Evals

/-- Claim C2: `get_quality_level` classifies by ordered thresholds, highest
first, first satisfied wins — `excellent` iff the score is at least 8.5,
`good` iff in `[7, 8.5)`, `acceptable` iff in `[5.5, 7)`,
`needs_improvement` iff in `[4, 5.5)`, `poor` iff below 4 — and in
particular classifies 8.5, 8.49, 5.5 and 3.99 as excellent, good,
acceptable and poor respectively. -/
theorem quality_level_bands :
    (∀ s : ℚ,
      (get_quality_level s = "excellent" ↔ 17 / 2 ≤ s) ∧
      (get_quality_level s = "good" ↔ 7 ≤ s ∧ s < 17 / 2) ∧
      (get_quality_level s = "acceptable" ↔ 11 / 2 ≤ s ∧ s < 7) ∧
      (get_quality_level s = "needs_improvement" ↔ 4 ≤ s ∧ s < 11 / 2) ∧
      (get_quality_level s = "poor" ↔ s < 4)) ∧
    get_quality_level (17 / 2) = "excellent" ∧
    get_quality_level (849 / 100) = "good" ∧
    get_quality_level (11 / 2) = "acceptable" ∧
    get_quality_level (399 / 100) = "poor" := by
  constructor
  · intro s
    rw [get_quality_level_ifs s]
    split_ifs with h1 h2 h3 h4 <;>
      refine ⟨⟨fun hh => ?_, fun hh => ?_⟩, ⟨fun hh => ?_, fun hh => ?_⟩,
        ⟨fun hh => ?_, fun hh => ?_⟩, ⟨fun hh => ?_, fun hh => ?_⟩,
        ⟨fun hh => ?_, fun hh => ?_⟩⟩ <;>
      first
      | rfl
      | exact absurd hh (by decide)
      | exact ⟨by linarith, by linarith⟩
      | exact (by linarith [hh.1, hh.2] : False).elim
      | exact (by linarith : False).elim
      | linarith
  refine ⟨?_, ?_, ?_, ?_⟩ <;> rw [get_quality_level_ifs]
  · rw [if_pos (by norm_num)]
  · rw [if_neg (by norm_num), if_pos (by norm_num)]
  · rw [if_neg (by norm_num), if_neg (by norm_num), if_pos (by norm_num)]
  · rw [if_neg (by norm_num), if_neg (by norm_num), if_neg (by norm_num),
      if_neg (by norm_num)]

/-- Witness for C2 at the concrete score 9. -/
theorem quality_level_bands_witness : get_quality_level 9 = "excellent" :=
  ((quality_level_bands.1 9).1).mpr (by norm_num)

/-- Claim C3: for score mappings with all five dimensions in `[1, 10]`, the
overall-score computation returns exactly the arithmetic mean of the five
scores rounded to two decimal places, and that value lies in `[1, 10]` —
for both the design-quality and the process-quality family. -/
theorem overall_score_is_rounded_mean :
    (∀ scores : EvaluationDimension → ℚ,
      (∀ d, 1 ≤ scores d ∧ scores d ≤ 10) →
      calculate_datamodel_eval_score scores =
        round2 ((scores .COMPLETENESS + scores .TECHNICAL_ACCURACY +
          scores .ACCESS_PATTERN_COVERAGE +
          scores .SCALABILITY_CONSIDERATIONS +
          scores .COST_OPTIMIZATION) / 5) ∧
      1 ≤ calculate_datamodel_eval_score scores ∧
        calculate_datamodel_eval_score scores ≤ 10) ∧
    (∀ scores : SessionDimension → ℚ,
      (∀ d, 1 ≤ scores d ∧ scores d ≤ 10) →
      calculate_session_eval_score scores =
        round2 ((scores .REQUIREMENTS_ENGINEERING +
          scores .ACCESS_PATTERN_ANALYSIS + scores .METHODOLOGY_ADHERENCE +
          scores .TECHNICAL_REASONING + scores .PROCESS_DOCUMENTATION) / 5) ∧
      1 ≤ calculate_session_eval_score scores ∧
        calculate_session_eval_score scores ≤ 10) := by
  constructor
  · intro scores h
    exact ⟨rfl, calc_datamodel_bounds scores h⟩
  · intro scores h
    exact ⟨rfl, calc_session_bounds scores h⟩

/-- Witness for C3 at the all-eights score mapping. -/
theorem overall_score_is_rounded_mean_witness :
    1 ≤ calculate_datamodel_eval_score (fun _ => 8) ∧
      calculate_datamodel_eval_score (fun _ => 8) ≤ 10 :=
  (overall_score_is_rounded_mean.1 (fun _ => 8)
    (fun _ => ⟨by norm_num, by norm_num⟩)).2

/-- Claim C5: the concrete input/output table of the score-recovery
function `extract_numeric_score`. -/
theorem score_recovery_table :
    extract_numeric_score "Score: 8.5/10" = 17 / 2 ∧
    extract_numeric_score "Rating: 7.2 out of 10" = 36 / 5 ∧
    extract_numeric_score "Excellent work" = 9 ∧
    extract_numeric_score "" = 7 ∧
    extract_numeric_score "95" = 19 / 2 := by
  refine ⟨?_, ?_, ?_, ?_, ?_⟩
  · rw [ens_of_match _ ('8' :: '.' :: '5' :: []) (by decide) (by decide)]
    have hp : parseNumQ ('8' :: '.' :: '5' :: []) = 17 / 2 := by
      have h1 : parseNumParts ('8' :: '.' :: '5' :: []) = (8, 5, 1) := by
        decide
      unfold parseNumQ
      rw [h1]
      norm_num
    rw [hp]
    norm_num [min_def, max_def]
  · rw [ens_of_match _ ('7' :: '.' :: '2' :: []) (by decide) (by decide)]
    have hp : parseNumQ ('7' :: '.' :: '2' :: []) = 36 / 5 := by
      have h1 : parseNumParts ('7' :: '.' :: '2' :: []) = (7, 2, 1) := by
        decide
      unfold parseNumQ
      rw [h1]
      norm_num
    rw [hp]
    norm_num [min_def, max_def]
  · rw [ens_of_keyword _ (by decide) (by decide)]
    rfl
  · unfold extract_numeric_score
    rw [if_pos rfl]
  · rw [ens_of_match _ ('9' :: '5' :: []) (by decide) (by decide)]
    have hp : parseNumQ ('9' :: '5' :: []) = 95 := by
      have h1 : parseNumParts ('9' :: '5' :: []) = (95, 0, 0) := by decide
      unfold parseNumQ
      rw [h1]
      norm_num
    rw [hp]
    norm_num [min_def, max_def]

/-- Claim C6: for every input text, score recovery returns a value in
`[1, 10]`; a matched number is divided by 10 when above 10 and clamped to
`[1, 10]`; with no numeric match the keyword bands decide, whose only
values are 9, 7.5, 6.5 and 4, with neutral default 7. -/
theorem score_recovery_contract :
    ∀ text : String,
      (1 ≤ extract_numeric_score text ∧ extract_numeric_score text ≤ 10) ∧
      (∀ x : ℚ, ¬ text = "" →
        matchedScore (text.data.map Char.toLower) = some x →
        extract_numeric_score text =
          max 1 (min 10 (if 10 < x then x / 10 else x))) ∧
      (¬ text = "" → matchedScore (text.data.map Char.toLower) = none →
        extract_numeric_score text =
          (keywordScore (text.data.map Char.toLower)).getD 7) ∧
      (∀ k : ℚ, keywordScore (text.data.map Char.toLower) = some k →
        k = 9 ∨ k = 15 / 2 ∨ k = 13 / 2 ∨ k = 4) := by
  intro text
  refine ⟨?_, ?_, ?_, fun k hk => keywordScore_mem _ k hk⟩
  · by_cases h0 : text = ""
    · rw [h0]
      unfold extract_numeric_score
      rw [if_pos rfl]
      norm_num
    · cases hm : matchedScore (text.data.map Char.toLower) with
      | some x =>
        have he : extract_numeric_score text =
            max 1 (min 10 (if 10 < x then x / 10 else x)) := by
          unfold extract_numeric_score
          rw [if_neg h0, hm]
        rw [he]
        refine ⟨le_max_left 1 _, max_le (by norm_num) (min_le_left _ _)⟩
      | none =>
        have he : extract_numeric_score text =
            (keywordScore (text.data.map Char.toLower)).getD 7 := by
          unfold extract_numeric_score
          rw [if_neg h0, hm]
        rw [he]
        cases hk : keywordScore (text.data.map Char.toLower) with
        | some k =>
          rcases keywordScore_mem _ k hk with h | h | h | h <;>
            subst h <;> norm_num
        | none => norm_num
  · intro x h0 hm
    unfold extract_numeric_score
    rw [if_neg h0, hm]
  · intro h0 hm
    unfold extract_numeric_score
    rw [if_neg h0, hm]

/-- Witness for C6 at a keyword-only input. -/
theorem score_recovery_contract_witness :
    extract_numeric_score "adequate" =
      (keywordScore ("adequate".data.map Char.toLower)).getD 7 :=
  (score_recovery_contract "adequate").2.2.1 (by decide) (by decide)

/-- Counterexample to claim C1: on the non-empty unparsable raw field
`"garbage"`, the aggregation yields 0, while `extract_numeric_score` (the
ScoreRecovery the claim says is applied) would yield its internal default
7 — so the aggregation does not apply ScoreRecovery. -/
theorem aggregation_bypasses_score_recovery :
    (_aggregate_evaluation_results garbageGuidance).completeness = 0 ∧
    extract_numeric_score "garbage" = 7 ∧
    (0 : ℚ) ≠ 7 := by
  refine ⟨safe_float_garbage, ?_, by norm_num⟩
  rw [ens_of_keyword _ (by decide) (by decide)]
  rfl

/-- Claim C1 as amended: the aggregation converts every raw dimension field
with the local `safe_float` — Python `float` of the first
whitespace-separated token — which returns the default 0 both on an empty
field and on a field whose first token does not parse; `extract_numeric_score`
is not involved. -/
theorem aggregation_uses_safe_float :
    (∀ g : GuidanceRaw,
      (_aggregate_evaluation_results g).completeness =
        safe_float g.completeness_score ∧
      (_aggregate_evaluation_results g).technical_accuracy =
        safe_float g.technical_accuracy_score ∧
      (_aggregate_evaluation_results g).access_pattern_coverage =
        safe_float g.access_pattern_coverage_score ∧
      (_aggregate_evaluation_results g).scalability_considerations =
        safe_float g.scalability_considerations_score ∧
      (_aggregate_evaluation_results g).cost_optimization =
        safe_float g.cost_optimization_score) ∧
    (∀ g : SessionRaw,
      (_aggregate_session_evaluation_results g).requirements_engineering =
        safe_float g.requirements_engineering_score ∧
      (_aggregate_session_evaluation_results g).access_pattern_analysis =
        safe_float g.access_pattern_analysis_score ∧
      (_aggregate_session_evaluation_results g).methodology_adherence =
        safe_float g.methodology_adherence_score ∧
      (_aggregate_session_evaluation_results g).technical_reasoning =
        safe_float g.technical_reasoning_score ∧
      (_aggregate_session_evaluation_results g).process_documentation =
        safe_float g.process_documentation_score) ∧
    safe_float "" = 0 ∧
    (∀ (s : String) (t : List Char), firstToken s.data = some t →
      pyFloatParse t = none → safe_float s = 0) := by
  refine ⟨fun g => ⟨rfl, rfl, rfl, rfl, rfl⟩,
    fun g => ⟨rfl, rfl, rfl, rfl, rfl⟩, safe_float_empty, ?_⟩
  intro s t ht hp
  exact safe_float_unparsable s t ht hp

/-- Witness for the amended C1 at the unparsable field `"garbage"`. -/
theorem aggregation_uses_safe_float_witness : safe_float "garbage" = 0 :=
  aggregation_uses_safe_float.2.2.2 "garbage"
    ('g' :: 'a' :: 'r' :: 'b' :: 'a' :: 'g' :: 'e' :: []) (by decide)
    (by decide)

/-- Counterexample to claim C4: aggregating a response with empty raw
fields produces per-dimension scores and an overall score of 0, outside
`[1, 10]`. -/
theorem aggregation_range_violated :
    (_aggregate_evaluation_results emptyGuidance).completeness = 0 ∧
    (_aggregate_evaluation_results emptyGuidance).overall_score = 0 ∧
    ¬ (1 : ℚ) ≤ 0 := by
  refine ⟨safe_float_empty, ?_, by norm_num⟩
  show calculate_datamodel_eval_score (guidanceScores emptyGuidance) = 0
  unfold calculate_datamodel_eval_score
  rw [show guidanceScores emptyGuidance .COMPLETENESS = 0 from
        safe_float_empty,
      show guidanceScores emptyGuidance .TECHNICAL_ACCURACY = 0 from
        safe_float_empty,
      show guidanceScores emptyGuidance .ACCESS_PATTERN_COVERAGE = 0 from
        safe_float_empty,
      show guidanceScores emptyGuidance .SCALABILITY_CONSIDERATIONS = 0 from
        safe_float_empty,
      show guidanceScores emptyGuidance .COST_OPTIMIZATION = 0 from
        safe_float_empty]
  rw [show ((0 : ℚ) + 0 + 0 + 0 + 0) / 5 = ((0 : ℤ) : ℚ) by norm_num,
    round2_intCast]
  norm_num

/-- Claim C4 as amended: when every raw dimension field converts (via
`safe_float`) to a value in `[1, 10]`, the aggregated result — for either
family — has all five per-dimension scores in `[1, 10]` and an overall
score in `[1, 10]`.  Arbitrary raw fields do not guarantee this (see the
counterexample with empty fields). -/
theorem aggregation_range_invariant :
    (∀ g : GuidanceRaw,
      (∀ d, 1 ≤ guidanceScores g d ∧ guidanceScores g d ≤ 10) →
      (1 ≤ (_aggregate_evaluation_results g).completeness ∧
        (_aggregate_evaluation_results g).completeness ≤ 10) ∧
      (1 ≤ (_aggregate_evaluation_results g).technical_accuracy ∧
        (_aggregate_evaluation_results g).technical_accuracy ≤ 10) ∧
      (1 ≤ (_aggregate_evaluation_results g).access_pattern_coverage ∧
        (_aggregate_evaluation_results g).access_pattern_coverage ≤ 10) ∧
      (1 ≤ (_aggregate_evaluation_results g).scalability_considerations ∧
        (_aggregate_evaluation_results g).scalability_considerations ≤ 10) ∧
      (1 ≤ (_aggregate_evaluation_results g).cost_optimization ∧
        (_aggregate_evaluation_results g).cost_optimization ≤ 10) ∧
      (1 ≤ (_aggregate_evaluation_results g).overall_score ∧
        (_aggregate_evaluation_results g).overall_score ≤ 10)) ∧
    (∀ g : SessionRaw,
      (∀ d, 1 ≤ sessionScores g d ∧ sessionScores g d ≤ 10) →
      (1 ≤ (_aggregate_session_evaluation_results g).requirements_engineering ∧
        (_aggregate_session_evaluation_results g).requirements_engineering ≤
          10) ∧
      (1 ≤ (_aggregate_session_evaluation_results g).access_pattern_analysis ∧
        (_aggregate_session_evaluation_results g).access_pattern_analysis ≤
          10) ∧
      (1 ≤ (_aggregate_session_evaluation_results g).methodology_adherence ∧
        (_aggregate_session_evaluation_results g).methodology_adherence ≤
          10) ∧
      (1 ≤ (_aggregate_session_evaluation_results g).technical_reasoning ∧
        (_aggregate_session_evaluation_results g).technical_reasoning ≤ 10) ∧
      (1 ≤ (_aggregate_session_evaluation_results g).process_documentation ∧
        (_aggregate_session_evaluation_results g).process_documentation ≤
          10) ∧
      (1 ≤ (_aggregate_session_evaluation_results g).overall_score ∧
        (_aggregate_session_evaluation_results g).overall_score ≤ 10)) := by
  constructor
  · intro g h
    exact ⟨h .COMPLETENESS, h .TECHNICAL_ACCURACY,
      h .ACCESS_PATTERN_COVERAGE, h .SCALABILITY_CONSIDERATIONS,
      h .COST_OPTIMIZATION, calc_datamodel_bounds _ h⟩
  · intro g h
    exact ⟨h .REQUIREMENTS_ENGINEERING, h .ACCESS_PATTERN_ANALYSIS,
      h .METHODOLOGY_ADHERENCE, h .TECHNICAL_REASONING,
      h .PROCESS_DOCUMENTATION, calc_session_bounds _ h⟩

/-- Witness for the amended C4 at the all-eights responses. -/
theorem aggregation_range_invariant_witness :
    (1 ≤ (_aggregate_evaluation_results eightGuidance).overall_score ∧
      (_aggregate_evaluation_results eightGuidance).overall_score ≤ 10) ∧
    (1 ≤ (_aggregate_session_evaluation_results eightSession).overall_score ∧
      (_aggregate_session_evaluation_results eightSession).overall_score ≤
        10) := by
  have h8 : 1 ≤ safe_float "8" ∧ safe_float "8" ≤ 10 := by
    rw [safe_float_eight]
    exact ⟨by norm_num, by norm_num⟩
  have h1 : ∀ d, 1 ≤ guidanceScores eightGuidance d ∧
      guidanceScores eightGuidance d ≤ 10 := by
    intro d
    cases d <;> exact h8
  have h2 : ∀ d, 1 ≤ sessionScores eightSession d ∧
      sessionScores eightSession d ≤ 10 := by
    intro d
    cases d <;> exact h8
  exact ⟨(aggregation_range_invariant.1 eightGuidance h1).2.2.2.2.2,
    (aggregation_range_invariant.2 eightSession h2).2.2.2.2.2⟩

/-- Claim C7: section extraction never returns exactly one section — every
non-raising run returns both sections or neither — and a transcript whose
content holds fewer than two fenced markdown blocks yields the fully-absent
result. -/
theorem section_extraction_all_or_nothing :
    (∀ (parsed : Option PyValue) (a b : Option String),
      extract_guidance_sections parsed = .ok (a, b) →
      (a.isSome ↔ b.isSome)) ∧
    (∀ md : String,
      (splitOnChars markdownFence (normalizeContent md).length
        (normalizeContent md)).length < 3 →
      extract_guidance_sections (some (mkPayload md)) = .ok (none, none)) := by
  constructor
  · intro parsed a b h
    rcases parsed with _ | v
    · have h' : (Except.ok (none, none) :
          Except PyErr (Option String × Option String)) = .ok (a, b) := h
      simp only [Except.ok.injEq, Prod.mk.injEq] at h'
      rw [← h'.1, ← h'.2]
    · rw [egs_some v] at h
      cases hcp : contentPath v with
      | error e =>
        rw [hcp] at h
        cases e with
        | keyError =>
          simp only [Except.ok.injEq, Prod.mk.injEq] at h
          rw [← h.1, ← h.2]
        | indexError =>
          simp only [Except.ok.injEq, Prod.mk.injEq] at h
          rw [← h.1, ← h.2]
        | typeError => exact Except.noConfusion h
        | attrError => exact Except.noConfusion h
      | ok t =>
        rw [hcp] at h
        cases t <;> try simp only [] at h
        case pyStr md =>
          unfold splitSections at h
          split_ifs at h with hlen <;>
            simp only [Except.ok.injEq, Prod.mk.injEq] at h <;>
            rw [← h.1, ← h.2] <;> simp
        all_goals exact Except.noConfusion h
  · intro md h
    show splitSections (normalizeContent md) = .ok (none, none)
    unfold splitSections
    rw [if_pos h]

/-- Witness for C7: an ok outcome, and a one-fence transcript degrading to
fully-absent. -/
theorem section_extraction_all_or_nothing_witness :
    ((none : Option String).isSome ↔ (none : Option String).isSome) ∧
    extract_guidance_sections (some (mkPayload "no fences here")) =
      .ok (none, none) :=
  ⟨section_extraction_all_or_nothing.1 none none none rfl,
   section_extraction_all_or_nothing.2 "no fences here" (by decide)⟩

/-- Counterexample to claim C8: a payload that deserializes to the integer
5 makes the nested subscript raise `TypeError`, which the
`except (KeyError, IndexError)` clause does not catch — the exception
escapes instead of a result being returned. -/
theorem section_extraction_can_raise :
    extract_guidance_sections (some (.pyInt 5)) = .error .typeError := rfl

/-- Claim C8 as amended: a payload that fails to deserialize yields the
fully-absent result, and a deserialized payload whose fixed nested path
fails with `KeyError` or `IndexError` also yields the fully-absent result;
but a payload on which the subscripting raises `TypeError` (a
non-subscriptable value) propagates the exception. -/
theorem section_extraction_error_recovery :
    extract_guidance_sections none = .ok (none, none) ∧
    (∀ p : PyValue, contentPath p = .error .keyError →
      extract_guidance_sections (some p) = .ok (none, none)) ∧
    (∀ p : PyValue, contentPath p = .error .indexError →
      extract_guidance_sections (some p) = .ok (none, none)) ∧
    (∀ p : PyValue, contentPath p = .error .typeError →
      extract_guidance_sections (some p) = .error .typeError) := by
  refine ⟨rfl, ?_, ?_, ?_⟩ <;> intro p h <;>
    · rw [egs_some p, h]

/-- Witness for the amended C8: an empty dict hits `KeyError` and degrades
to fully-absent. -/
theorem section_extraction_error_recovery_witness :
    extract_guidance_sections (some (.pyDict [])) = .ok (none, none) :=
  section_extraction_error_recovery.2.1 (.pyDict []) rfl

/-- Counterexample to claim C9: with both sections extracted and the
session-family evaluation already succeeded, a raising model-family engine
call makes the whole run return the error report — the session result is
not preserved anywhere in it. -/
theorem model_engine_failure_discards_session_result :
    extract_guidance_sections (some twoBlockPayload) =
      .ok (some "A", some "B") ∧
    (evaluate_scenarios (some twoBlockPayload) (.ok sampleSessionResult)
      (.error ())).status = "error" ∧
    (evaluate_scenarios (some twoBlockPayload) (.ok sampleSessionResult)
      (.error ())).session_evaluation = none :=
  ⟨rfl, rfl, rfl⟩

/-- Claim C9 as amended: if the reasoning-engine call for the model family
raises after the session family's evaluation succeeded, the single
enclosing `try` discards the whole run: `evaluate_with_conversation`
returns `None` and the report has status `error` with no evaluation result
preserved. -/
theorem engine_failure_fails_whole_run :
    ∀ (parsed : Option PyValue) (s t : String)
      (sres : SessionEvaluationResult),
      extract_guidance_sections parsed = .ok (some s, some t) →
      ¬ s = "" → ¬ t = "" →
      evaluate_with_conversation parsed (.ok sres) (.error ()) = none ∧
      (evaluate_scenarios parsed (.ok sres) (.error ())).status = "error" ∧
      (evaluate_scenarios parsed (.ok sres)
        (.error ())).session_evaluation = none := by
  intro parsed s t sres hx hs ht
  have hts : truthyStr (some s) = true := by
    rw [truthy_some s, beq_eq_false_iff_ne.mpr hs]
    rfl
  have htt : truthyStr (some t) = true := by
    rw [truthy_some t, beq_eq_false_iff_ne.mpr ht]
    rfl
  have h1 : evaluate_with_conversation parsed (.ok sres) (.error ()) =
      none := by
    rw [ewc_of_extract parsed (some s) (some t) _ _ hx, hts, htt]
    rfl
  refine ⟨h1, ?_, ?_⟩ <;>
    · unfold evaluate_scenarios
      rw [h1]

/-- Witness for the amended C9 at the two-block payload. -/
theorem engine_failure_fails_whole_run_witness :
    evaluate_with_conversation (some twoBlockPayload)
      (.ok sampleSessionResult) (.error ()) = none :=
  (engine_failure_fails_whole_run (some twoBlockPayload) "A" "B"
    sampleSessionResult rfl (by decide) (by decide)).1

/-- Claim C10: when extraction returns both sections but either one is the
empty string, the orchestrator behaves exactly as on total extraction
failure — both dimension evaluations are skipped (whatever their outcomes
would have been), the assembled report carries no evaluation results, and
the run still reports the non-error status `success`. -/
theorem empty_section_skips_both_evaluations :
    ∀ (parsed : Option PyValue) (s t : String)
      (se : Except Unit SessionEvaluationResult)
      (me : Except Unit EvaluationResult),
      extract_guidance_sections parsed = .ok (some s, some t) →
      (s = "" ∨ t = "") →
      evaluate_with_conversation parsed se me =
        some { modeling_session := s
               data_model := t
               session_evaluation := none
               model_evaluation := none
               session_quality_level := "unknown"
               model_quality_level := "unknown" } ∧
      (evaluate_scenarios parsed se me).status = "success" ∧
      (evaluate_scenarios parsed se me).session_evaluation = none ∧
      (evaluate_scenarios parsed se me).model_evaluation = none := by
  intro parsed s t se me hx hst
  have hcond : (truthyStr (some s) && truthyStr (some t)) = false := by
    rcases hst with rfl | rfl <;> simp [truthy_some]
  have h1 : evaluate_with_conversation parsed se me =
      some { modeling_session := s
             data_model := t
             session_evaluation := none
             model_evaluation := none
             session_quality_level := "unknown"
             model_quality_level := "unknown" } := by
    rw [ewc_of_extract parsed (some s) (some t) se me hx, hcond]
    rfl
  refine ⟨h1, ?_, ?_, ?_⟩ <;>
    · unfold evaluate_scenarios
      rw [h1]

/-- Witness for C10 at a payload with an empty first section: the report is
a success with both evaluations absent. -/
theorem empty_section_skips_both_evaluations_witness :
    (evaluate_scenarios (some emptyFirstBlockPayload) (.error ())
      (.error ())).status = "success" :=
  (empty_section_skips_both_evaluations (some emptyFirstBlockPayload) "" "B"
    (.error ()) (.error ()) rfl (Or.inl rfl)).2.1

end Evals
